import Mathlib

/-!
Shallow embedding of the authentication / authorization core of the
crm-main-backend repository (FastAPI + MongoDB), covering:

  * `dependencies.py` — password hashing wrappers and `create_access_token`
  * `security.py` — `create_access_token`, `decode_token`, and the three
    role guards `get_current_superadmin` / `get_current_admin` /
    `get_current_employee`
  * `auth/admin.py` — `register_admin`, `admin_login`
  * `auth/employee.py` — `employee_login`
  * `routes/admin.py` — `create_employee`, `get_employee_location`
  * `routes/superadmin.py` — `verify_admin`
  * `services/email_service.py` — `send_email` and its wrappers

JWT payloads are modelled as association lists of string keys and JSON-ish
values; a signed token records its payload together with the secret that
signed it, so that signature verification is equality of secrets.  Times are
natural numbers (seconds).  HTTP failures are `Except` errors carrying the
status code and detail string.  MongoDB collections are Lean lists of
records; `find_one` is `List.find?`, `insert_one` is append, `update_one`
updates the first matching record.
-/

/-- A JSON-ish value as it appears in a JWT payload or HTTP response:
a string, an integer, or Python `None`.  (Float-valued fields such as
geographic coordinates are never computed with by the code under study and
are carried as opaque strings.) -/
inductive JVal where
  | str (s : String)
  | num (n : Int)
  | null
deriving DecidableEq, Repr

/-- A JWT payload / Python dict: an association list from keys to values.
Keys are unique by construction in all payloads the code builds. -/
abbrev Payload := List (String × JVal)

/-- Python `dict.get(key)`: the value at the first occurrence of the key,
or `None` when absent. -/
def pget : Payload → String → JVal
  | [], _ => .null
  | (k, v) :: rest, key => if k = key then v else pget rest key

/-- `True` when the payload has the key (Python `key in dict`). -/
def haskey : Payload → String → Bool
  | [], _ => false
  | (k, _) :: rest, key => if k = key then true else haskey rest key

/-- Python `dict.update` with a single key: replace the value at the key if
present, otherwise append the binding at the end. -/
def pupdate : Payload → String → JVal → Payload
  | [], key, v => [(key, v)]
  | (k, w) :: rest, key, v =>
      if k = key then (k, v) :: rest else (k, w) :: pupdate rest key v

/-- Python truthiness of a payload value: `None`, the empty string and `0`
are falsy, everything else is truthy (`if not payload.get(field)`). -/
def truthy : JVal → Bool
  | .str s => !(s = "")
  | .num n => !(n = 0)
  | .null => false

/-- A `fastapi.HTTPException`: status code plus detail string. -/
structure HTTPError where
  status : Nat
  detail : String
deriving DecidableEq, Repr

/-- An exception flowing inside a Python `try` block: either an
`HTTPException` or a `KeyError` from a `dict[key]` access. -/
inductive PyErr where
  | http (e : HTTPError)
  | keyError (k : String)
deriving DecidableEq, Repr

/-- Python `str(e)` on a caught exception.  For `HTTPException`,
Starlette renders `f"{status_code}: {detail}"`.  (For `KeyError`, CPython
renders the quoted key; the exact quoting is immaterial to every claim and
the key is rendered bare here.) -/
def PyErr.toStr : PyErr → String
  | .http e => toString e.status ++ ": " ++ e.detail
  | .keyError k => "KeyError: " ++ k

/-- Lift an `HTTPException` raised by a callee into the enclosing
`try` block's exception type. -/
def liftHttp : Except HTTPError α → Except PyErr α
  | .ok a => .ok a
  | .error e => .error (.http e)

/-- A signed JWT, modelled as the payload it carries plus the secret that
signed it; `jwt.decode` under a secret succeeds exactly when the secrets
agree, which models HS256 signature verification. -/
structure JWTToken where
  payload : Payload
  secret : String
deriving DecidableEq, Repr

namespace dependencies

/-- dependencies.py `ACCESS_TOKEN_EXPIRE_MINUTES = 60`. -/
def ACCESS_TOKEN_EXPIRE_MINUTES : Nat := 60

/-- dependencies.py `hash_password`, a model of `pwd_context.hash`
(bcrypt): hashing is an injective tagging of the password; external
library code, not repository code. -/
def hash_password (password : String) : String :=
  "bcrypt$" ++ password

/-- dependencies.py `verify_password`, a model of `pwd_context.verify`:
the plain password matches exactly when hashing it reproduces the stored
hash. -/
def verify_password (plain_password hashed_password : String) : Bool :=
  hashed_password = hash_password plain_password

/-- dependencies.py `create_access_token(data, expires_delta=None)`:
copies the claims, sets `exp = now + (expires_delta or 60 minutes)`
(seconds), and signs with the process-wide secret. -/
def create_access_token (data : Payload) (now : Nat)
    (expires_delta : Option Nat) (secret : String) : JWTToken :=
  { payload :=
      pupdate data "exp"
        (.num ((now + expires_delta.getD (ACCESS_TOKEN_EXPIRE_MINUTES * 60) : Nat) : Int))
    secret := secret }

end dependencies

namespace security

/-- security.py `ACCESS_TOKEN_EXPIRE_MINUTES = 30`. -/
def ACCESS_TOKEN_EXPIRE_MINUTES : Nat := 30

/-- security.py `create_access_token(data)`: copies the claims, sets
`exp = now + 30 minutes`, signs with the process-wide secret. -/
def create_access_token (data : Payload) (now : Nat) (secret : String) : JWTToken :=
  { payload :=
      pupdate data "exp" (.num ((now + ACCESS_TOKEN_EXPIRE_MINUTES * 60 : Nat) : Int))
    secret := secret }

/-- security.py `decode_token`: `jose.jwt.decode` verifies the signature
first (mismatching secret gives `JWTError`, re-raised as 401
"Invalid token"), then checks the `exp` claim with zero leeway: expired
exactly when `exp < now` (`ExpiredSignatureError`, re-raised as 401
"Token has expired"); otherwise it returns the payload. -/
def decode_token (token : JWTToken) (secret : String) (now : Nat) :
    Except HTTPError Payload :=
  if token.secret = secret then
    match pget token.payload "exp" with
    | .num e => if e < (now : Int) then .error ⟨401, "Token has expired"⟩
                else .ok token.payload
    | _ => .ok token.payload
  else .error ⟨401, "Invalid token"⟩

/-- The `for field in required_fields: if not payload.get(field)` loop in
the admin and employee guards: the first falsy field raises 401
"Invalid token: missing <field>". -/
def check_required_fields : List String → Payload → Except PyErr Unit
  | [], _ => .ok ()
  | f :: rest, payload =>
      if truthy (pget payload f) then check_required_fields rest payload
      else .error (.http ⟨401, "Invalid token: missing " ++ f⟩)

/-- Body of the `try` block of security.py `get_current_superadmin`. -/
def get_current_superadmin_body (token : JWTToken) (secret : String) (now : Nat) :
    Except PyErr Payload :=
  match liftHttp (decode_token token secret now) with
  | .error e => .error e
  | .ok payload =>
      if pget payload "role" = .str "superadmin" then .ok payload
      else .error (.http ⟨403, "Not authorized as SuperAdmin"⟩)

/-- security.py `get_current_superadmin`: the whole body sits in a
`try` block whose `except Exception as e` re-raises every exception —
including the 403 `HTTPException` raised for a role mismatch — as
`HTTPException(401, str(e))`. -/
def get_current_superadmin (token : JWTToken) (secret : String) (now : Nat) :
    Except HTTPError Payload :=
  match get_current_superadmin_body token secret now with
  | .ok payload => .ok payload
  | .error e => .error ⟨401, e.toStr⟩

/-- Body of the `try` block of security.py `get_current_admin`. -/
def get_current_admin_body (token : JWTToken) (secret : String) (now : Nat) :
    Except PyErr Payload :=
  match liftHttp (decode_token token secret now) with
  | .error e => .error e
  | .ok payload =>
      if pget payload "role" = .str "admin" then
        match check_required_fields ["admin_id", "organization_id", "email"] payload with
        | .error e => .error e
        | .ok _ => .ok payload
      else .error (.http ⟨403, "Not authorized as Admin"⟩)

/-- security.py `get_current_admin`: decode, check `role == "admin"`
(403 on mismatch), check `admin_id`, `organization_id`, `email` truthy
(401 on the first falsy one), return the payload; the surrounding
`except Exception` re-raises every failure as `HTTPException(401, str(e))`. -/
def get_current_admin (token : JWTToken) (secret : String) (now : Nat) :
    Except HTTPError Payload :=
  match get_current_admin_body token secret now with
  | .ok payload => .ok payload
  | .error e => .error ⟨401, e.toStr⟩

/-- Body of the `try` block of security.py `get_current_employee`. -/
def get_current_employee_body (token : JWTToken) (secret : String) (now : Nat) :
    Except PyErr Payload :=
  match liftHttp (decode_token token secret now) with
  | .error e => .error e
  | .ok payload =>
      if pget payload "role" = .str "employee" then
        match check_required_fields ["employee_id", "organization_id", "email"] payload with
        | .error e => .error e
        | .ok _ => .ok payload
      else .error (.http ⟨403, "Not authorized as Employee"⟩)

/-- security.py `get_current_employee`: decode, check `role == "employee"`
(403 on mismatch), check `employee_id`, `organization_id`, `email` truthy
(401 on the first falsy one), return the payload; the surrounding
`except Exception` re-raises every failure as `HTTPException(401, str(e))`. -/
def get_current_employee (token : JWTToken) (secret : String) (now : Nat) :
    Except HTTPError Payload :=
  match get_current_employee_body token secret now with
  | .ok payload => .ok payload
  | .error e => .error ⟨401, e.toStr⟩

end security

/-! ## Stored records (MongoDB documents) -/

/-- An employee location document, stored by the employee
`POST /location` handler as a dict with `latitude`, `longitude`,
`updated_at`.  Coordinate values are floats in the source; no handler in
scope computes with them, so they are carried as opaque strings. -/
structure Loc where
  latitude : String
  longitude : String
  updated_at : String
deriving DecidableEq, Repr

/-- An employee document as inserted by routes/admin.py `create_employee`:
`_id`, `email`, `name` are strings; `organization_id`, `organization`,
`admin_id` hold whatever values the admin token carried.  `password` is
added later by the set-password endpoint, `location` by the location
endpoint. -/
structure Employee where
  id : String
  email : String
  name : String
  organization_id : JVal
  organization : JVal
  admin_id : JVal
  created_at : Nat
  role : String
  password : Option String
  location : Option Loc
deriving DecidableEq, Repr

/-- An admin document as inserted by auth/admin.py `register_admin`;
`password` is added by set-password, `last_login` by login,
`verified_at` / `verified_by` by SuperAdmin verification. -/
structure Admin where
  id : String
  email : String
  name : String
  phone : String
  organization_id : String
  organization : String
  address : String
  emp_count : Int
  is_verified : Bool
  role : String
  created_at : Nat
  password : Option String
  last_login : Option Nat
  verified_at : Option Nat
  verified_by : Option JVal
deriving DecidableEq, Repr

/-- An organization document as inserted by auth/admin.py `register_admin`:
`total_employees` is set to the registering admin's `emp_count`, the
configured employee quota. -/
structure Organization where
  id : String
  name : String
  address : String
  contact_person : String
  contact_email : String
  contact_number : String
  total_employees : Int
deriving DecidableEq, Repr

/-- Mongo `update_one`: updates the first document matching the filter. -/
def update_first : List α → (α → Bool) → (α → α) → List α
  | [], _, _ => []
  | a :: rest, p, f =>
      if p a then f a :: rest else a :: update_first rest p f

/-- The number of employee documents stamped with the given
`organization_id` value (Mongo `count_documents`). -/
def org_employee_count (db : List Employee) (org : JVal) : Nat :=
  (db.filter (fun e => e.organization_id = org)).length

/-! ## services/email_service.py -/

/-- services/email_service.py `send_email`: the whole SMTP interaction is
inside a `try` block; on any failure the exception is logged and the
function returns `False` — it never raises.  The SMTP layer is external,
so its outcome is a parameter. -/
def send_email (smtp : Except String Unit) : Bool :=
  match smtp with
  | .ok _ => true
  | .error _ => false

/-- services/email_service.py `send_verification_email`. -/
def send_verification_email (smtp : Except String Unit) : Bool :=
  send_email smtp

/-- services/email_service.py `send_approval_email`. -/
def send_approval_email (smtp : Except String Unit) : Bool :=
  send_email smtp

/-- services/email_service.py `send_employee_invitation`. -/
def send_employee_invitation (smtp : Except String Unit) : Bool :=
  send_email smtp

/-! ## auth/admin.py -/

/-- The pydantic `AdminModel` request body of `POST /register`. -/
structure AdminModel where
  email : String
  name : String
  phone : String
  organization : String
  address : String
  emp_count : Int
deriving DecidableEq, Repr

/-- Response of `POST /register`. -/
structure RegisterResponse where
  message : String
  admin_id : String
  organization_id : String
  organization_name : String
deriving DecidableEq, Repr

/-- auth/admin.py `register_admin`: rejects a duplicate admin email with
400; otherwise inserts the organization document (with
`total_employees := emp_count`, the quota) and the unverified admin
document, sends the verification email (`send_email` returns a bool and
never raises, so the request succeeds regardless of the SMTP outcome),
and returns the registration message.  `org_id` and `admin_id` stand for
the randomly generated identifiers. -/
def register_admin (adm : AdminModel) (admins : List Admin)
    (orgs : List Organization) (org_id admin_id : String) (now : Nat)
    (smtp : Except String Unit) :
    Except HTTPError RegisterResponse × List Admin × List Organization :=
  match admins.find? (fun a => a.email = adm.email) with
  | some _ => (.error ⟨400, "Admin with this email already exists"⟩, admins, orgs)
  | none =>
      let organization_data : Organization :=
        { id := org_id, name := adm.organization, address := adm.address
          contact_person := adm.name, contact_email := adm.email
          contact_number := adm.phone, total_employees := adm.emp_count }
      let admin_data : Admin :=
        { id := admin_id, email := adm.email, name := adm.name
          phone := adm.phone, organization_id := org_id
          organization := adm.organization, address := adm.address
          emp_count := adm.emp_count, is_verified := false, role := "admin"
          created_at := now, password := none, last_login := none
          verified_at := none, verified_by := none }
      let _ := send_verification_email smtp
      (.ok { message := "Registration successful. Your request has been sent for verification."
             admin_id := admin_id, organization_id := org_id
             organization_name := adm.organization },
       admins ++ [admin_data], orgs ++ [organization_data])

/-- The `user` object in the login response. -/
structure AdminDetails where
  id : String
  name : String
  email : String
  role : String
deriving DecidableEq, Repr

/-- The `organization` object in the login response. -/
structure OrganizationDetails where
  id : String
  name : String
deriving DecidableEq, Repr

/-- Response of `POST /admin-login`. -/
structure LoginResponse where
  success : Bool
  message : String
  token : JWTToken
  user : AdminDetails
  organization : OrganizationDetails
deriving DecidableEq, Repr

/-- auth/admin.py `admin_login`: 404 when no admin has the email; 403
"Admin is not verified yet" when `is_verified` is falsy (checked before
the password); 401 "Invalid password" when the bcrypt check fails; 404
"Organization not found" when the admin's `organization_id` matches no
organization document; otherwise issues a token whose payload carries
`admin_id`, `role`, `organization_id`, `organization_name` (and the
added `exp`) — and no `email` claim — stamps `last_login` on the admin
document, and returns the response.  A verified admin document without a
stored password hash makes `pwd_context.verify` raise out of the handler
(HTTP 500).  Returns the response paired with the updated admin
collection. -/
def admin_login (email password : String) (admins : List Admin)
    (orgs : List Organization) (now : Nat) (secret : String) :
    Except HTTPError LoginResponse × List Admin :=
  match admins.find? (fun a => a.email = email) with
  | none => (.error ⟨404, "Admin not found"⟩, admins)
  | some admin =>
      if admin.is_verified then
        match admin.password with
        | none => (.error ⟨500, "Internal Server Error"⟩, admins)
        | some hpw =>
            if dependencies.verify_password password hpw then
              match orgs.find? (fun o => o.id = admin.organization_id) with
              | none => (.error ⟨404, "Organization not found"⟩, admins)
              | some organization =>
                  let token := dependencies.create_access_token
                    [("admin_id", .str admin.id), ("role", .str "admin"),
                     ("organization_id", .str admin.organization_id),
                     ("organization_name", .str admin.organization)]
                    now none secret
                  (.ok { success := true, message := "Login successful"
                         token := token
                         user := { id := admin.id, name := admin.name
                                   email := admin.email, role := "admin" }
                         organization := { id := organization.id
                                           name := organization.name } },
                   update_first admins (fun a => a.email = email)
                     (fun a => { a with last_login := some now }))
            else (.error ⟨401, "Invalid password"⟩, admins)
      else (.error ⟨403, "Admin is not verified yet"⟩, admins)

/-! ## auth/employee.py -/

/-- Response of `POST /employee-login`. -/
structure EmployeeLoginResponse where
  message : String
  token : JWTToken
deriving DecidableEq, Repr

/-- auth/employee.py `employee_login`: 404 when no employee has the
email; 401 "Invalid password" on a failed bcrypt check (a stored record
without a password hash makes `pwd_context.verify` raise, HTTP 500);
otherwise issues a token whose payload carries `employee_id`, `role`,
`organization`, `organization_id`, `admin_id` (and the added `exp`) —
and no `email` claim. -/
def employee_login (email password : String) (employees : List Employee)
    (now : Nat) (secret : String) :
    Except HTTPError EmployeeLoginResponse :=
  match employees.find? (fun e => e.email = email) with
  | none => .error ⟨404, "Employee not found"⟩
  | some employee =>
      match employee.password with
      | none => .error ⟨500, "Internal Server Error"⟩
      | some hpw =>
          if dependencies.verify_password password hpw then
            let token := dependencies.create_access_token
              [("employee_id", .str employee.id), ("role", .str "employee"),
               ("organization", employee.organization),
               ("organization_id", employee.organization_id),
               ("admin_id", employee.admin_id)]
              now none secret
            .ok { message := "Login successful", token := token }
          else .error ⟨401, "Invalid password"⟩

/-! ## routes/admin.py -/

/-- Python `current_admin[key]` dict indexing: `KeyError` when absent. -/
def dict_index (p : Payload) (key : String) : Except PyErr JVal :=
  if haskey p key then .ok (pget p key) else .error (.keyError key)

/-- Response of `POST /create-employee`. -/
structure CreateEmployeeResponse where
  message : String
  employee_id : String
deriving DecidableEq, Repr

/-- Body of the `try` block of routes/admin.py `create_employee`: reads
`admin_id`, `organization_id`, `organization_name` from the admin token
payload by dict indexing (`KeyError` when absent), rejects a duplicate
employee email with 400, inserts the employee document stamped with the
token's organization values, sends the invitation email inside its own
`try`/`except` (the outcome is discarded), and returns success.  No
quota or employee-count check appears anywhere in the handler. -/
def create_employee_body (email name : String) (current_admin : Payload)
    (employees : List Employee) (new_id : String) (now : Nat)
    (smtp : Except String Unit) :
    Except PyErr (CreateEmployeeResponse × List Employee) :=
  match dict_index current_admin "admin_id" with
  | .error e => .error e
  | .ok admin_id =>
  match dict_index current_admin "organization_id" with
  | .error e => .error e
  | .ok organization_id =>
  match dict_index current_admin "organization_name" with
  | .error e => .error e
  | .ok organization =>
  match employees.find? (fun e => e.email = email) with
  | some _ => .error (.http ⟨400, "Employee already exists"⟩)
  | none =>
      let employee_data : Employee :=
        { id := new_id, email := email, name := name
          organization_id := organization_id, organization := organization
          admin_id := admin_id, created_at := now, role := "employee"
          password := none, location := none }
      let _ := send_employee_invitation smtp
      .ok ({ message := "Employee created successfully", employee_id := new_id },
           employees ++ [employee_data])

/-- routes/admin.py `create_employee`: the whole body sits in a `try`
block whose `except Exception as e` re-raises every exception — including
the handler's own 400 `HTTPException` for a duplicate email — as
`HTTPException(500, str(e))`. -/
def create_employee (email name : String) (current_admin : Payload)
    (employees : List Employee) (new_id : String) (now : Nat)
    (smtp : Except String Unit) :
    Except HTTPError (CreateEmployeeResponse × List Employee) :=
  match create_employee_body email name current_admin employees new_id now smtp with
  | .ok r => .ok r
  | .error e => .error ⟨500, e.toStr⟩

/-- Response of `GET /employee-location/.{employee_id}`. -/
structure LocationResponse where
  employee_name : String
  latitude : String
  longitude : String
  updated_at : String
  google_maps_url : String
deriving DecidableEq, Repr

/-- routes/admin.py `get_employee_location`: 401 when the admin claims
carry no truthy `organization_id`; `find_one` with the conjunctive filter
on `_id` and `organization_id` — an employee of another organization
never matches — giving 404 "Employee not found or does not belong to
your organization" on a miss; 404 "Location not available" when the
matched document has no location; otherwise the name, coordinates and a
maps URL. -/
def get_employee_location (employee_id : String) (admin : Payload)
    (employees : List Employee) : Except HTTPError LocationResponse :=
  let organization_id := pget admin "organization_id"
  if truthy organization_id then
    match employees.find?
        (fun e => e.id = employee_id ∧ e.organization_id = organization_id) with
    | none => .error ⟨404, "Employee not found or does not belong to your organization"⟩
    | some employee =>
        match employee.location with
        | none => .error ⟨404, "Location not available"⟩
        | some location =>
            .ok { employee_name := employee.name
                  latitude := location.latitude
                  longitude := location.longitude
                  updated_at := location.updated_at
                  google_maps_url :=
                    "https://www.google.com/maps?q=" ++ location.latitude
                      ++ "," ++ location.longitude }
  else .error ⟨401, "Invalid token"⟩

/-! ## routes/superadmin.py -/

/-- Response of `PUT /verify-admin/.{admin_id}`. -/
structure VerifyAdminResponse where
  message : String
  admin_id : String
  verified_at : Nat
deriving DecidableEq, Repr

/-- routes/superadmin.py `verify_admin`: 404 when no admin document has
the id; 400 "Admin is already verified" when its `is_verified` is truthy;
otherwise `update_one` sets `is_verified := true`, `verified_at` and
`verified_by` (the superadmin claim, defaulting to "SUPER-ADMIN") on the
first matching document, raising 400 "Failed to verify admin" if the
update modified nothing, then sends the approval email inside its own
`try`/`except` (outcome discarded) and returns success.  This handler
re-raises `HTTPException` unchanged (`except HTTPException as he:
raise he`), so no status demotion occurs here.  Failure paths leave the
collection unchanged. -/
def verify_admin (admin_id : String) (admins : List Admin)
    (superadmin : Payload) (now : Nat) (smtp : Except String Unit) :
    Except HTTPError VerifyAdminResponse × List Admin :=
  match admins.find? (fun a => a.id = admin_id) with
  | none => (.error ⟨404, "Admin not found with ID: " ++ admin_id⟩, admins)
  | some admin =>
      if admin.is_verified then
        (.error ⟨400, "Admin is already verified"⟩, admins)
      else
        let verified_by : JVal :=
          if haskey superadmin "superadmin_id" then pget superadmin "superadmin_id"
          else .str "SUPER-ADMIN"
        let upd : Admin → Admin := fun a =>
          { a with is_verified := true, verified_at := some now
                   verified_by := some verified_by }
        let new_admins := update_first admins (fun a => a.id = admin_id) upd
        let modified : Nat := if upd admin = admin then 0 else 1
        if modified = 0 then
          (.error ⟨400, "Failed to verify admin"⟩, new_admins)
        else
          let _ := send_approval_email smtp
          (.ok { message := "Admin verified successfully", admin_id := admin_id
                 verified_at := now },
           new_admins)

/-! ## Helper lemmas about the payload and collection primitives -/

theorem pget_pupdate_self (p : Payload) (k : String) (v : JVal) :
    pget (pupdate p k v) k = v := by
  induction p with
  | nil => simp [pupdate, pget]
  | cons kv rest ih =>
      by_cases h : kv.1 = k <;> simp [pupdate, pget, h, ih]

theorem pget_pupdate_ne (p : Payload) (k k' : String) (v : JVal)
    (h : k' ≠ k) : pget (pupdate p k v) k' = pget p k' := by
  induction p with
  | nil => simp [pupdate, pget, Ne.symm h]
  | cons kv rest ih =>
      by_cases hk : kv.1 = k
      · subst hk
        simp [pupdate, pget, Ne.symm h]
      · by_cases hk' : kv.1 = k' <;> simp [pupdate, pget, hk, hk', h, ih]

theorem check_required_fields_ok (fields : List String) (p : Payload)
    (h : ∀ f ∈ fields, truthy (pget p f) = true) :
    security.check_required_fields fields p = .ok () := by
  induction fields with
  | nil => rfl
  | cons f rest ih =>
      have hf := h f (List.mem_cons_self f rest)
      simp [security.check_required_fields, hf]
      exact ih (fun g hg => h g (List.mem_cons_of_mem f hg))

theorem check_required_fields_err (fields : List String) (p : Payload)
    (h : ∃ f ∈ fields, ¬ truthy (pget p f) = true) :
    ∃ d, security.check_required_fields fields p = .error (.http ⟨401, d⟩) := by
  induction fields with
  | nil => simp at h
  | cons f rest ih =>
      by_cases hf : truthy (pget p f) = true
      · simp [security.check_required_fields, hf]
        rcases h with ⟨g, hg, hng⟩
        rcases List.mem_cons.mp hg with hgf | hgr
        · exact absurd (hgf ▸ hf) hng
        · exact ih ⟨g, hgr, hng⟩
      · exact ⟨"Invalid token: missing " ++ f,
          by simp [security.check_required_fields, hf]⟩

theorem decode_token_pupdate (data : Payload) (c : Int) (secret : String) (now : Nat) :
    security.decode_token ⟨pupdate data "exp" (.num c), secret⟩ secret now =
      if c < (now : Int) then .error ⟨401, "Token has expired"⟩
      else .ok (pupdate data "exp" (.num c)) := by
  simp [security.decode_token, pget_pupdate_self]

theorem org_employee_count_append (db : List Employee) (e : Employee) (v : JVal) :
    org_employee_count (db ++ [e]) v =
      org_employee_count db v + (if e.organization_id = v then 1 else 0) := by
  by_cases h : e.organization_id = v <;>
    simp [org_employee_count, List.filter_append, h]

theorem find?_update_first (l : List α) (p : α → Bool) (f : α → α) (a : α)
    (hf : l.find? p = some a) (hp : p (f a) = true) :
    (update_first l p f).find? p = some (f a) := by
  induction l with
  | nil => simp [List.find?] at hf
  | cons x rest ih =>
      by_cases hx : p x = true
      · have : x = a := by
          have := List.find?_cons_of_pos (p := p) rest hx
          rw [this] at hf
          exact Option.some.inj hf
        subst this
        simp [update_first, hx, List.find?_cons_of_pos _ hp]
      · have hfx : ¬ p x = true := hx
        rw [List.find?_cons_of_neg (p := p) rest hfx] at hf
        have h1 : update_first (x :: rest) p f = x :: update_first rest p f := by
          simp [update_first, hfx]
        rw [h1, List.find?_cons_of_neg (p := p) _ hfx]
        exact ih hf

/-- The record inserted by `create_employee` for a fresh email. -/
def new_employee_record (email name : String) (current_admin : Payload)
    (new_id : String) (now : Nat) : Employee :=
  { id := new_id, email := email, name := name
    organization_id := pget current_admin "organization_id"
    organization := pget current_admin "organization_name"
    admin_id := pget current_admin "admin_id"
    created_at := now, role := "employee"
    password := none, location := none }

theorem create_employee_fresh (email name : String) (current_admin : Payload)
    (employees : List Employee) (new_id : String) (now : Nat)
    (smtp : Except String Unit)
    (ha : haskey current_admin "admin_id" = true)
    (ho : haskey current_admin "organization_id" = true)
    (hn : haskey current_admin "organization_name" = true)
    (hfresh : employees.find? (fun e => e.email = email) = none) :
    create_employee email name current_admin employees new_id now smtp =
      .ok ({ message := "Employee created successfully", employee_id := new_id },
           employees ++ [new_employee_record email name current_admin new_id now]) := by
  simp [create_employee, create_employee_body, dict_index, ha, ho, hn, hfresh,
    new_employee_record]

theorem create_employee_duplicate (email name : String) (current_admin : Payload)
    (employees : List Employee) (new_id : String) (now : Nat)
    (smtp : Except String Unit) (e : Employee)
    (ha : haskey current_admin "admin_id" = true)
    (ho : haskey current_admin "organization_id" = true)
    (hn : haskey current_admin "organization_name" = true)
    (hdup : employees.find? (fun x => x.email = email) = some e) :
    create_employee email name current_admin employees new_id now smtp =
      .error ⟨500, "400: Employee already exists"⟩ := by
  have hbody : create_employee_body email name current_admin employees new_id now smtp =
      .error (.http ⟨400, "Employee already exists"⟩) := by
    simp [create_employee_body, dict_index, ha, ho, hn, hdup]
  unfold create_employee
  rw [hbody]
  rfl

/-! ## Claim theorems -/

/-- C1: the claim states that employee creation fails with a
ValidationError ("limit reached") when the organization's employee count
equals the quota.  No such check exists in `create_employee`: here an
organization with quota 1 already has 1 employee, yet creating another
succeeds and the count rises to 2.  Closed counterexample refuting the
claim as stated. -/
theorem C1_counterexample_no_quota_check :
    org_employee_count
        [{ id := "EMP-1", email := "e1@x.com", name := "One"
           organization_id := JVal.str "ORG-1", organization := JVal.str "Acme"
           admin_id := JVal.str "ADMIN-1", created_at := 0, role := "employee"
           password := none, location := none }] (JVal.str "ORG-1") = 1 ∧
    (Organization.mk "ORG-1" "Acme" "addr" "Ann" "ann@x.com" "1234567890"
        1).total_employees = 1 ∧
    create_employee "e2@x.com" "Two"
        [("admin_id", JVal.str "ADMIN-1"), ("organization_id", JVal.str "ORG-1"),
         ("organization_name", JVal.str "Acme")]
        [{ id := "EMP-1", email := "e1@x.com", name := "One"
           organization_id := JVal.str "ORG-1", organization := JVal.str "Acme"
           admin_id := JVal.str "ADMIN-1", created_at := 0, role := "employee"
           password := none, location := none }] "EMP-2" 7 (.ok ()) =
      .ok ({ message := "Employee created successfully", employee_id := "EMP-2" },
           [{ id := "EMP-1", email := "e1@x.com", name := "One"
              organization_id := JVal.str "ORG-1", organization := JVal.str "Acme"
              admin_id := JVal.str "ADMIN-1", created_at := 0, role := "employee"
              password := none, location := none },
            { id := "EMP-2", email := "e2@x.com", name := "Two"
              organization_id := JVal.str "ORG-1", organization := JVal.str "Acme"
              admin_id := JVal.str "ADMIN-1", created_at := 7, role := "employee"
              password := none, location := none }]) ∧
    org_employee_count
        [{ id := "EMP-1", email := "e1@x.com", name := "One"
           organization_id := JVal.str "ORG-1", organization := JVal.str "Acme"
           admin_id := JVal.str "ADMIN-1", created_at := 0, role := "employee"
           password := none, location := none },
         { id := "EMP-2", email := "e2@x.com", name := "Two"
           organization_id := JVal.str "ORG-1", organization := JVal.str "Acme"
           admin_id := JVal.str "ADMIN-1", created_at := 7, role := "employee"
           password := none, location := none }] (JVal.str "ORG-1") = 2 :=
  ⟨rfl, rfl, rfl, rfl⟩

/-- C1 (amended): `create_employee` never consults the organization's
quota.  Whenever no stored employee has the submitted email, creation
succeeds and the organization's employee count increments by exactly 1
regardless of the quota; when an employee with the email exists, it fails
with the duplicate-email error (wrapped by the handler's catch-all into a
500 with detail "400: Employee already exists"). -/
theorem C1_amended_no_quota_enforcement (email name : String)
    (current_admin : Payload) (employees : List Employee) (new_id : String)
    (now : Nat) (smtp : Except String Unit)
    (ha : haskey current_admin "admin_id" = true)
    (ho : haskey current_admin "organization_id" = true)
    (hn : haskey current_admin "organization_name" = true) :
    (employees.find? (fun e => e.email = email) = none →
        create_employee email name current_admin employees new_id now smtp =
          .ok ({ message := "Employee created successfully", employee_id := new_id },
               employees ++ [new_employee_record email name current_admin new_id now]) ∧
        org_employee_count
            (employees ++ [new_employee_record email name current_admin new_id now])
            (pget current_admin "organization_id") =
          org_employee_count employees (pget current_admin "organization_id") + 1) ∧
    (∀ e, employees.find? (fun x => x.email = email) = some e →
        create_employee email name current_admin employees new_id now smtp =
          .error ⟨500, "400: Employee already exists"⟩) := by
  constructor
  · intro hfresh
    refine ⟨create_employee_fresh email name current_admin employees new_id now smtp
      ha ho hn hfresh, ?_⟩
    rw [org_employee_count_append]
    simp [new_employee_record]
  · intro e hdup
    exact create_employee_duplicate email name current_admin employees new_id now smtp e
      ha ho hn hdup

/-- C1 amended witness: concrete fresh creation succeeds and bumps the
count from 0 to 1, and a duplicate email is rejected. -/
theorem C1_amended_no_quota_enforcement_witness :
    create_employee "n@x.com" "New"
        [("admin_id", JVal.str "ADMIN-1"), ("organization_id", JVal.str "ORG-1"),
         ("organization_name", JVal.str "Acme")] [] "EMP-9" 3 (.ok ()) =
      .ok ({ message := "Employee created successfully", employee_id := "EMP-9" },
           [] ++ [new_employee_record "n@x.com" "New"
             [("admin_id", JVal.str "ADMIN-1"), ("organization_id", JVal.str "ORG-1"),
              ("organization_name", JVal.str "Acme")] "EMP-9" 3]) ∧
    org_employee_count
        ([] ++ [new_employee_record "n@x.com" "New"
          [("admin_id", JVal.str "ADMIN-1"), ("organization_id", JVal.str "ORG-1"),
           ("organization_name", JVal.str "Acme")] "EMP-9" 3])
        (pget [("admin_id", JVal.str "ADMIN-1"), ("organization_id", JVal.str "ORG-1"),
               ("organization_name", JVal.str "Acme")] "organization_id") =
      org_employee_count []
        (pget [("admin_id", JVal.str "ADMIN-1"), ("organization_id", JVal.str "ORG-1"),
               ("organization_name", JVal.str "Acme")] "organization_id") + 1 :=
  (C1_amended_no_quota_enforcement "n@x.com" "New"
      [("admin_id", JVal.str "ADMIN-1"), ("organization_id", JVal.str "ORG-1"),
       ("organization_name", JVal.str "Acme")] [] "EMP-9" 3 (.ok ())
      rfl rfl rfl).1 rfl

theorem admin_login_success (email password : String) (admins : List Admin)
    (orgs : List Organization) (now : Nat) (secret : String) (a : Admin)
    (org : Organization) (hpw : String)
    (hfind : admins.find? (fun x => x.email = email) = some a)
    (hver : a.is_verified = true)
    (hpass : a.password = some hpw)
    (hvp : dependencies.verify_password password hpw = true)
    (horg : orgs.find? (fun o => o.id = a.organization_id) = some org) :
    admin_login email password admins orgs now secret =
      (.ok { success := true, message := "Login successful"
             token := dependencies.create_access_token
               [("admin_id", .str a.id), ("role", .str "admin"),
                ("organization_id", .str a.organization_id),
                ("organization_name", .str a.organization)] now none secret
             user := { id := a.id, name := a.name, email := a.email, role := "admin" }
             organization := { id := org.id, name := org.name } },
       update_first admins (fun x => x.email = email)
         (fun x => { x with last_login := some now })) := by
  simp [admin_login, hfind, hver, hpass, hvp, horg]

theorem employee_login_success (email password : String)
    (employees : List Employee) (now : Nat) (secret : String)
    (emp : Employee) (hpw : String)
    (hfind : employees.find? (fun x => x.email = email) = some emp)
    (hpass : emp.password = some hpw)
    (hvp : dependencies.verify_password password hpw = true) :
    employee_login email password employees now secret =
      .ok { message := "Login successful"
            token := dependencies.create_access_token
              [("employee_id", .str emp.id), ("role", .str "employee"),
               ("organization", emp.organization),
               ("organization_id", emp.organization_id),
               ("admin_id", emp.admin_id)] now none secret } := by
  simp [employee_login, hfind, hpass, hvp]

theorem guard_missing_email_admin (aid oid oname : String) (c : Int)
    (secret : String) (tcheck : Nat)
    (haid : aid ≠ "") (horg : oid ≠ "") (hta : ¬ (c < (tcheck : Int))) :
    security.get_current_admin
      ⟨[("admin_id", .str aid), ("role", .str "admin"),
        ("organization_id", .str oid), ("organization_name", .str oname),
        ("exp", .num c)], secret⟩ secret tcheck =
      .error ⟨401, "401: Invalid token: missing email"⟩ := by
  have h0 : truthy JVal.null = false := rfl
  have h1 : truthy (JVal.str aid) = true := by simp [truthy, haid]
  have h2 : truthy (JVal.str oid) = true := by simp [truthy, horg]
  simp [security.get_current_admin, security.get_current_admin_body,
    security.decode_token, liftHttp, security.check_required_fields,
    pget, h0, h1, h2, hta, PyErr.toStr]
  rfl

theorem guard_missing_email_employee (eid : String) (orgv oidv aidv : JVal)
    (c : Int) (secret : String) (tcheck : Nat)
    (heid : eid ≠ "") (horg : truthy oidv = true) (hta : ¬ (c < (tcheck : Int))) :
    security.get_current_employee
      ⟨[("employee_id", .str eid), ("role", .str "employee"),
        ("organization", orgv), ("organization_id", oidv),
        ("admin_id", aidv), ("exp", .num c)], secret⟩ secret tcheck =
      .error ⟨401, "401: Invalid token: missing email"⟩ := by
  have h0 : truthy JVal.null = false := rfl
  have h1 : truthy (JVal.str eid) = true := by simp [truthy, heid]
  simp [security.get_current_employee, security.get_current_employee_body,
    security.decode_token, liftHttp, security.check_required_fields,
    pget, h0, h1, horg, hta, PyErr.toStr]
  rfl

/-- C2: for every admin claim set carrying organization id `A` (non-empty)
and every stored employee collection in which every record with the
requested id is stamped with an organization other than `A`, the
employee-location handler returns 404 "Employee not found or does not
belong to your organization" — in particular it never returns the
employee's location or name. -/
theorem C2_cross_tenant_location_is_not_found
    (admin : Payload) (A employee_id : String) (employees : List Employee)
    (hA : pget admin "organization_id" = .str A) (hne : A ≠ "")
    (hcross : ∀ e ∈ employees, e.id = employee_id →
        e.organization_id ≠ JVal.str A) :
    get_employee_location employee_id admin employees =
      .error ⟨404, "Employee not found or does not belong to your organization"⟩ := by
  have hfind : employees.find?
      (fun e => decide (e.id = employee_id) && decide (e.organization_id = JVal.str A)) = none := by
    rw [List.find?_eq_none]
    intro e he
    simp only [Bool.and_eq_true, decide_eq_true_eq, not_and]
    exact fun hid => hcross e he hid
  simp [get_employee_location, hA, truthy, hne, hfind]

/-- C2 witness: a concrete admin of organization ORG-A querying the
location of a concrete employee of organization ORG-B gets exactly the
404 cross-tenant answer. -/
theorem C2_cross_tenant_location_is_not_found_witness :
    get_employee_location "EMP-1" [("organization_id", JVal.str "ORG-A")]
      [{ id := "EMP-1", email := "e@x.com", name := "Eve"
         organization_id := JVal.str "ORG-B", organization := JVal.str "Beta"
         admin_id := JVal.str "ADMIN-9", created_at := 0, role := "employee"
         password := none
         location := some { latitude := "1.0", longitude := "2.0", updated_at := "t" } }] =
      .error ⟨404, "Employee not found or does not belong to your organization"⟩ :=
  C2_cross_tenant_location_is_not_found
    [("organization_id", JVal.str "ORG-A")] "ORG-A" "EMP-1" _
    (by rfl) (by decide) (by decide)

/-- C3: the claim states that a verified, unexpired token with the wrong
role makes each role guard fail with 403; in the code every guard's 403
`HTTPException` is raised inside a `try` block whose bare
`except Exception as e` re-raises it as `HTTPException(401, str(e))`, so
the observable status is 401 with the stringified 403 exception as the
detail.  This theorem evaluates all three guards at such tokens. -/
theorem C3_role_mismatch_is_demoted_to_401 :
    (security.get_current_admin
        ⟨[("role", .str "employee"), ("exp", .num 100)], "s"⟩ "s" 0 =
      .error ⟨401, "403: Not authorized as Admin"⟩) ∧
    (security.get_current_superadmin
        ⟨[("role", .str "admin"), ("exp", .num 100)], "s"⟩ "s" 0 =
      .error ⟨401, "403: Not authorized as SuperAdmin"⟩) ∧
    (security.get_current_employee
        ⟨[("role", .str "admin"), ("exp", .num 100)], "s"⟩ "s" 0 =
      .error ⟨401, "403: Not authorized as Employee"⟩) :=
  ⟨rfl, rfl, rfl⟩

/-- C5: the token issued by `admin_login` carries `admin_id`, `role`,
`organization_id`, `organization_name` and `exp` but no `email` claim, and
the token issued by `employee_login` carries `employee_id`, `role`,
`organization`, `organization_id`, `admin_id` and `exp` but no `email`
claim; since both role guards require a truthy `email` claim, every such
token (checked unexpired, under the same secret, with the other mandated
fields non-empty) is rejected by the guard for its own role with 401
"401: Invalid token: missing email" — it is never accepted. -/
theorem C5_login_tokens_lack_email_and_fail_guards
    (secret email password email2 password2 : String) (now tcheck : Nat)
    (admins : List Admin) (orgs : List Organization) (a : Admin)
    (org : Organization) (employees : List Employee) (emp : Employee)
    (hfa : admins.find? (fun x => x.email = email) = some a)
    (hver : a.is_verified = true)
    (hpass : a.password = some (dependencies.hash_password password))
    (hfo : orgs.find? (fun o => o.id = a.organization_id) = some org)
    (haid : a.id ≠ "") (haorg : a.organization_id ≠ "")
    (hfe : employees.find? (fun x => x.email = email2) = some emp)
    (hpass2 : emp.password = some (dependencies.hash_password password2))
    (heid : emp.id ≠ "") (horg2 : truthy emp.organization_id = true)
    (hta : ¬ (((now + 3600 : Nat) : Int) < (tcheck : Int))) :
    (∃ resp, (admin_login email password admins orgs now secret).1 = .ok resp ∧
        security.get_current_admin resp.token secret tcheck =
          .error ⟨401, "401: Invalid token: missing email"⟩) ∧
    (∃ resp, employee_login email2 password2 employees now secret = .ok resp ∧
        security.get_current_employee resp.token secret tcheck =
          .error ⟨401, "401: Invalid token: missing email"⟩) := by
  have hvp : dependencies.verify_password password
      (dependencies.hash_password password) = true := by
    simp [dependencies.verify_password]
  have hvp2 : dependencies.verify_password password2
      (dependencies.hash_password password2) = true := by
    simp [dependencies.verify_password]
  constructor
  · refine ⟨{ success := true, message := "Login successful",
              token := ⟨[("admin_id", .str a.id), ("role", .str "admin"),
                ("organization_id", .str a.organization_id),
                ("organization_name", .str a.organization),
                ("exp", .num ((now + 3600 : Nat) : Int))], secret⟩,
              user := { id := a.id, name := a.name, email := a.email, role := "admin" },
              organization := { id := org.id, name := org.name } }, ?_, ?_⟩
    · rw [admin_login_success email password admins orgs now secret a org
        (dependencies.hash_password password) hfa hver hpass hvp hfo]
      rfl
    · exact guard_missing_email_admin a.id a.organization_id a.organization
        ((now + 3600 : Nat) : Int) secret tcheck haid haorg hta
  · refine ⟨{ message := "Login successful",
              token := ⟨[("employee_id", .str emp.id), ("role", .str "employee"),
                ("organization", emp.organization),
                ("organization_id", emp.organization_id),
                ("admin_id", emp.admin_id),
                ("exp", .num ((now + 3600 : Nat) : Int))], secret⟩ }, ?_, ?_⟩
    · rw [employee_login_success email2 password2 employees now secret emp
        (dependencies.hash_password password2) hfe hpass2 hvp2]
      rfl
    · exact guard_missing_email_employee emp.id emp.organization
        emp.organization_id emp.admin_id ((now + 3600 : Nat) : Int)
        secret tcheck heid horg2 hta

/-- C5 witness: a concrete verified admin and a concrete employee log in
successfully, and each resulting token is rejected by its own role guard
for the missing email claim. -/
theorem C5_login_tokens_lack_email_and_fail_guards_witness :
    (∃ resp, (admin_login "a@x.com" "pw"
        [{ id := "ADMIN-1", email := "a@x.com", name := "Ann"
           phone := "1234567890", organization_id := "ORG-1"
           organization := "Acme", address := "addr", emp_count := 2
           is_verified := true, role := "admin", created_at := 0
           password := some (dependencies.hash_password "pw")
           last_login := none, verified_at := none, verified_by := none }]
        [{ id := "ORG-1", name := "Acme", address := "addr"
           contact_person := "Ann", contact_email := "a@x.com"
           contact_number := "1234567890", total_employees := 2 }] 0 "s").1 =
          .ok resp ∧
        security.get_current_admin resp.token "s" 5 =
          .error ⟨401, "401: Invalid token: missing email"⟩) ∧
    (∃ resp, employee_login "e@x.com" "pw2"
        [{ id := "EMP-1", email := "e@x.com", name := "Eve"
           organization_id := JVal.str "ORG-1", organization := JVal.str "Acme"
           admin_id := JVal.str "ADMIN-1", created_at := 0, role := "employee"
           password := some (dependencies.hash_password "pw2")
           location := none }] 0 "s" = .ok resp ∧
        security.get_current_employee resp.token "s" 5 =
          .error ⟨401, "401: Invalid token: missing email"⟩) :=
  C5_login_tokens_lack_email_and_fail_guards "s" "a@x.com" "pw" "e@x.com" "pw2"
    0 5 _ _ _ _ _ _ rfl rfl rfl rfl (by decide) (by decide) rfl rfl
    (by decide) (by decide) (by decide)

/-- C4: for every verified, unexpired token whose role matches the guard
and whose role-mandated claim fields are all present and non-empty, the
admin and employee guards return the decoded claim set unchanged; when the
role matches but any role-mandated field is missing or empty, the guard
fails with status 401. -/
theorem C4_guards_return_claims_or_401
    (token : JWTToken) (secret : String) (now : Nat) (e : Int)
    (hsec : token.secret = secret)
    (hexp : pget token.payload "exp" = .num e)
    (hfresh : ¬ e < (now : Int)) :
    ((pget token.payload "role" = .str "admin" →
        (∀ f ∈ ["admin_id", "organization_id", "email"],
            truthy (pget token.payload f) = true) →
        security.get_current_admin token secret now = .ok token.payload) ∧
     (pget token.payload "role" = .str "admin" →
        (∃ f ∈ ["admin_id", "organization_id", "email"],
            ¬ truthy (pget token.payload f) = true) →
        ∃ d, security.get_current_admin token secret now = .error ⟨401, d⟩) ∧
     (pget token.payload "role" = .str "employee" →
        (∀ f ∈ ["employee_id", "organization_id", "email"],
            truthy (pget token.payload f) = true) →
        security.get_current_employee token secret now = .ok token.payload) ∧
     (pget token.payload "role" = .str "employee" →
        (∃ f ∈ ["employee_id", "organization_id", "email"],
            ¬ truthy (pget token.payload f) = true) →
        ∃ d, security.get_current_employee token secret now = .error ⟨401, d⟩)) := by
  have hdec : security.decode_token token secret now = .ok token.payload := by
    simp [security.decode_token, hsec, hexp, hfresh]
  refine ⟨?_, ?_, ?_, ?_⟩
  · intro hrole hall
    have hck := check_required_fields_ok
      ["admin_id", "organization_id", "email"] token.payload hall
    simp [security.get_current_admin, security.get_current_admin_body,
      hdec, liftHttp, hrole, hck]
  · intro hrole hmiss
    obtain ⟨d, hck⟩ := check_required_fields_err _ token.payload hmiss
    exact ⟨PyErr.toStr (.http ⟨401, d⟩), by
      simp [security.get_current_admin, security.get_current_admin_body,
        hdec, liftHttp, hrole, hck]⟩
  · intro hrole hall
    have hck := check_required_fields_ok
      ["employee_id", "organization_id", "email"] token.payload hall
    simp [security.get_current_employee, security.get_current_employee_body,
      hdec, liftHttp, hrole, hck]
  · intro hrole hmiss
    obtain ⟨d, hck⟩ := check_required_fields_err _ token.payload hmiss
    exact ⟨PyErr.toStr (.http ⟨401, d⟩), by
      simp [security.get_current_employee, security.get_current_employee_body,
        hdec, liftHttp, hrole, hck]⟩

/-- C4 witness: a complete admin token is returned unchanged, and the same
token with an empty email claim is rejected with a 401. -/
theorem C4_guards_return_claims_or_401_witness :
    security.get_current_admin
        ⟨[("role", .str "admin"), ("admin_id", .str "A1"),
          ("organization_id", .str "O1"), ("email", .str "a@x.com"),
          ("exp", .num 100)], "s"⟩ "s" 0 =
      .ok [("role", .str "admin"), ("admin_id", .str "A1"),
           ("organization_id", .str "O1"), ("email", .str "a@x.com"),
           ("exp", .num 100)] ∧
    ∃ d, security.get_current_admin
        ⟨[("role", .str "admin"), ("admin_id", .str "A1"),
          ("organization_id", .str "O1"), ("email", .str ""),
          ("exp", .num 100)], "s"⟩ "s" 0 = .error ⟨401, d⟩ :=
  ⟨(C4_guards_return_claims_or_401
      ⟨[("role", .str "admin"), ("admin_id", .str "A1"),
        ("organization_id", .str "O1"), ("email", .str "a@x.com"),
        ("exp", .num 100)], "s"⟩ "s" 0 100 rfl rfl (by decide)).1
      (by decide) (by decide),
   (C4_guards_return_claims_or_401
      ⟨[("role", .str "admin"), ("admin_id", .str "A1"),
        ("organization_id", .str "O1"), ("email", .str ""),
        ("exp", .num 100)], "s"⟩ "s" 0 100 rfl rfl (by decide)).2.1
      (by decide) (by decide)⟩

/-- C6: a token issued at time `now` with ttl `T` seconds decodes
successfully under the same secret at every check time strictly before
`now + T`, and decoding at every check time strictly after `now + T`
fails with 401 "Token has expired". -/
theorem C6_token_ttl_expiry_window
    (data : Payload) (now T : Nat) (secret : String) :
    (∀ t : Nat, t < now + T →
        security.decode_token
          (dependencies.create_access_token data now (some T) secret) secret t =
          .ok (pupdate data "exp" (.num (((now + T : Nat) : Int))))) ∧
    (∀ t : Nat, now + T < t →
        security.decode_token
          (dependencies.create_access_token data now (some T) secret) secret t =
          .error ⟨401, "Token has expired"⟩) := by
  have htok : dependencies.create_access_token data now (some T) secret =
      ⟨pupdate data "exp" (.num ((now + T : Nat) : Int)), secret⟩ := rfl
  constructor
  · intro t ht
    have hlt : ¬ (((now + T : Nat) : Int) < (t : Int)) := by omega
    rw [htok, decode_token_pupdate, if_neg hlt]
  · intro t ht
    have hlt : ((now + T : Nat) : Int) < (t : Int) := by omega
    rw [htok, decode_token_pupdate, if_pos hlt]

/-- C6 witness: with ttl 2 issued at 0, the token decodes at time 1 and is
expired at time 3. -/
theorem C6_token_ttl_expiry_window_witness :
    security.decode_token
        (dependencies.create_access_token [] 0 (some 2) "s") "s" 1 =
      .ok (pupdate [] "exp" (.num (((0 + 2 : Nat) : Int)))) ∧
    security.decode_token
        (dependencies.create_access_token [] 0 (some 2) "s") "s" 3 =
      .error ⟨401, "Token has expired"⟩ :=
  ⟨(C6_token_ttl_expiry_window [] 0 2 "s").1 1 (by decide),
   (C6_token_ttl_expiry_window [] 0 2 "s").2 3 (by decide)⟩

theorem verify_admin_unverified (admin_id : String) (admins : List Admin)
    (superadmin : Payload) (now : Nat) (smtp : Except String Unit) (a : Admin)
    (hfind : admins.find? (fun x => x.id = admin_id) = some a)
    (hunver : a.is_verified = false) :
    verify_admin admin_id admins superadmin now smtp =
      (.ok { message := "Admin verified successfully", admin_id := admin_id,
             verified_at := now },
       update_first admins (fun x => x.id = admin_id)
         (fun b => { b with
             is_verified := true
             verified_at := some now
             verified_by := some (if haskey superadmin "superadmin_id"
                                  then pget superadmin "superadmin_id"
                                  else .str "SUPER-ADMIN") })) := by
  have hne : ¬ (({ a with
      is_verified := true
      verified_at := some now
      verified_by := some (if haskey superadmin "superadmin_id"
                           then pget superadmin "superadmin_id"
                           else .str "SUPER-ADMIN") } : Admin) = a) := by
    intro h
    have hcongr := congrArg Admin.is_verified h
    rw [hunver] at hcongr
    simp at hcongr
  simp [verify_admin, hfind, hunver, hne]

/-- C8: the SuperAdmin verify operation fails with 404 when no admin
document has the id, fails with 400 "Admin is already verified" when the
found document is already verified — leaving the collection unchanged in
both failure cases — and otherwise succeeds, after which the document
with that id has its verified flag set to true. -/
theorem C8_verify_admin_state_machine (admin_id : String)
    (admins : List Admin) (superadmin : Payload) (now : Nat)
    (smtp : Except String Unit) :
    (admins.find? (fun a => a.id = admin_id) = none →
        verify_admin admin_id admins superadmin now smtp =
          (.error ⟨404, "Admin not found with ID: " ++ admin_id⟩, admins)) ∧
    (∀ a, admins.find? (fun x => x.id = admin_id) = some a →
        a.is_verified = true →
        verify_admin admin_id admins superadmin now smtp =
          (.error ⟨400, "Admin is already verified"⟩, admins)) ∧
    (∀ a, admins.find? (fun x => x.id = admin_id) = some a →
        a.is_verified = false →
        (verify_admin admin_id admins superadmin now smtp).1 =
          .ok { message := "Admin verified successfully", admin_id := admin_id,
                verified_at := now } ∧
        ((verify_admin admin_id admins superadmin now smtp).2.find?
            (fun x => x.id = admin_id)).map Admin.is_verified = some true) := by
  refine ⟨?_, ?_, ?_⟩
  · intro hnone
    simp [verify_admin, hnone]
  · intro a hfind hver
    simp [verify_admin, hfind, hver]
  · intro a hfind hunver
    rw [verify_admin_unverified admin_id admins superadmin now smtp a hfind hunver]
    refine ⟨rfl, ?_⟩
    have hp : (fun x : Admin => decide (x.id = admin_id))
        ({ a with
           is_verified := true
           verified_at := some now
           verified_by := some (if haskey superadmin "superadmin_id"
                                then pget superadmin "superadmin_id"
                                else .str "SUPER-ADMIN") } : Admin) = true := by
      have h0 := List.find?_some (p := fun x : Admin => decide (x.id = admin_id))
        (a := a) hfind
      exact h0
    rw [find?_update_first admins _ _ a hfind hp]
    rfl

/-- C8 witness: a concrete unverified admin is transitioned to verified,
a concrete verified admin is rejected with 400, and a missing id gives
404, on concrete one-element collections. -/
theorem C8_verify_admin_state_machine_witness :
    verify_admin "ADMIN-9" [] [] 0 (.ok ()) =
      (.error ⟨404, "Admin not found with ID: " ++ "ADMIN-9"⟩, []) ∧
    (verify_admin "ADMIN-1"
        [{ id := "ADMIN-1", email := "a@x.com", name := "Ann",
           phone := "1234567890", organization_id := "ORG-1",
           organization := "Acme", address := "addr", emp_count := 2,
           is_verified := false, role := "admin", created_at := 0,
           password := none, last_login := none, verified_at := none,
           verified_by := none }] [] 7 (.ok ())).1 =
      .ok { message := "Admin verified successfully", admin_id := "ADMIN-1",
            verified_at := 7 } ∧
    ((verify_admin "ADMIN-1"
        [{ id := "ADMIN-1", email := "a@x.com", name := "Ann",
           phone := "1234567890", organization_id := "ORG-1",
           organization := "Acme", address := "addr", emp_count := 2,
           is_verified := false, role := "admin", created_at := 0,
           password := none, last_login := none, verified_at := none,
           verified_by := none }] [] 7 (.ok ())).2.find?
        (fun x => x.id = "ADMIN-1")).map Admin.is_verified = some true :=
  ⟨(C8_verify_admin_state_machine "ADMIN-9" [] [] 0 (.ok ())).1 rfl,
   ((C8_verify_admin_state_machine "ADMIN-1"
      [{ id := "ADMIN-1", email := "a@x.com", name := "Ann",
         phone := "1234567890", organization_id := "ORG-1",
         organization := "Acme", address := "addr", emp_count := 2,
         is_verified := false, role := "admin", created_at := 0,
         password := none, last_login := none, verified_at := none,
         verified_by := none }] [] 7 (.ok ())).2.2 _ rfl rfl).1,
   ((C8_verify_admin_state_machine "ADMIN-1"
      [{ id := "ADMIN-1", email := "a@x.com", name := "Ann",
         phone := "1234567890", organization_id := "ORG-1",
         organization := "Acme", address := "addr", emp_count := 2,
         is_verified := false, role := "admin", created_at := 0,
         password := none, last_login := none, verified_at := none,
         verified_by := none }] [] 7 (.ok ())).2.2 _ rfl rfl).2⟩

/-- C7: the claim states that a verified admin with a matching password
always logs in successfully.  In the code the login additionally looks up
the admin's organization document and fails with 404 "Organization not
found" when it is absent: here a verified admin whose stored hash matches
the submitted password is rejected because the organization collection
has no document with its `organization_id`.  Closed counterexample
refuting the claim as stated. -/
theorem C7_counterexample_missing_organization :
    (Admin.mk "ADMIN-1" "a@x.com" "Ann" "1234567890" "ORG-1" "Acme" "addr" 1
        true "admin" 0 (some (dependencies.hash_password "pw"))
        none none none).is_verified = true ∧
    dependencies.verify_password "pw" (dependencies.hash_password "pw") = true ∧
    (admin_login "a@x.com" "pw"
        [Admin.mk "ADMIN-1" "a@x.com" "Ann" "1234567890" "ORG-1" "Acme" "addr" 1
          true "admin" 0 (some (dependencies.hash_password "pw")) none none none]
        [] 0 "s").1 =
      .error ⟨404, "Organization not found"⟩ :=
  ⟨rfl, by decide, rfl⟩

/-- C7 (amended): for the admin record found by email, login fails with
403 "Admin is not verified yet" whenever the verified flag is false,
regardless of the password; when the flag is true and the stored hash
matches, login succeeds and returns a token provided the admin's
organization document exists, and fails with 404 "Organization not found"
when it does not; when the flag is true and the stored hash does not
match, login fails with 401 "Invalid password". -/
theorem C7_amended_admin_login_outcomes (email password : String)
    (admins : List Admin) (orgs : List Organization) (now : Nat)
    (secret : String) (a : Admin)
    (hfind : admins.find? (fun x => x.email = email) = some a) :
    (a.is_verified = false →
        admin_login email password admins orgs now secret =
          (.error ⟨403, "Admin is not verified yet"⟩, admins)) ∧
    (∀ hpw, a.is_verified = true → a.password = some hpw →
        dependencies.verify_password password hpw = false →
        admin_login email password admins orgs now secret =
          (.error ⟨401, "Invalid password"⟩, admins)) ∧
    (∀ hpw, a.is_verified = true → a.password = some hpw →
        dependencies.verify_password password hpw = true →
        orgs.find? (fun o => o.id = a.organization_id) = none →
        admin_login email password admins orgs now secret =
          (.error ⟨404, "Organization not found"⟩, admins)) ∧
    (∀ hpw org, a.is_verified = true → a.password = some hpw →
        dependencies.verify_password password hpw = true →
        orgs.find? (fun o => o.id = a.organization_id) = some org →
        admin_login email password admins orgs now secret =
          (.ok { success := true, message := "Login successful",
                 token := dependencies.create_access_token
                   [("admin_id", .str a.id), ("role", .str "admin"),
                    ("organization_id", .str a.organization_id),
                    ("organization_name", .str a.organization)] now none secret,
                 user := { id := a.id, name := a.name, email := a.email,
                           role := "admin" },
                 organization := { id := org.id, name := org.name } },
           update_first admins (fun x => x.email = email)
             (fun x => { x with last_login := some now }))) := by
  refine ⟨?_, ?_, ?_, ?_⟩
  · intro hunver
    simp [admin_login, hfind, hunver]
  · intro hpw hver hpass hvp
    simp [admin_login, hfind, hver, hpass, hvp]
  · intro hpw hver hpass hvp hnone
    simp [admin_login, hfind, hver, hpass, hvp, hnone]
  · intro hpw org hver hpass hvp horg
    exact admin_login_success email password admins orgs now secret a org hpw
      hfind hver hpass hvp horg

/-- C7 amended witness: a concrete unverified admin is rejected with 403,
and the same admin once verified (with its organization present) logs in. -/
theorem C7_amended_admin_login_outcomes_witness :
    admin_login "a@x.com" "zz"
        [{ id := "ADMIN-1", email := "a@x.com", name := "Ann",
           phone := "1234567890", organization_id := "ORG-1",
           organization := "Acme", address := "addr", emp_count := 2,
           is_verified := false, role := "admin", created_at := 0,
           password := some (dependencies.hash_password "pw"),
           last_login := none, verified_at := none, verified_by := none }]
        [] 0 "s" =
      (.error ⟨403, "Admin is not verified yet"⟩,
       [{ id := "ADMIN-1", email := "a@x.com", name := "Ann",
          phone := "1234567890", organization_id := "ORG-1",
          organization := "Acme", address := "addr", emp_count := 2,
          is_verified := false, role := "admin", created_at := 0,
          password := some (dependencies.hash_password "pw"),
          last_login := none, verified_at := none, verified_by := none }]) :=
  (C7_amended_admin_login_outcomes "a@x.com" "zz"
      [{ id := "ADMIN-1", email := "a@x.com", name := "Ann",
         phone := "1234567890", organization_id := "ORG-1",
         organization := "Acme", address := "addr", emp_count := 2,
         is_verified := false, role := "admin", created_at := 0,
         password := some (dependencies.hash_password "pw"),
         last_login := none, verified_at := none, verified_by := none }]
      [] 0 "s" _ rfl).1 rfl

/-- C9: notification sending is best-effort.  `send_email` swallows every
SMTP failure and returns a boolean, `create_employee` and `verify_admin`
additionally wrap their send in a local `try`/`except`, and in all three
business operations the send outcome is discarded: the result of
`register_admin`, `create_employee` and `verify_admin` is identical for
every SMTP outcome, and each operation still succeeds (in its nominal
case) when the notification send fails. -/
theorem C9_email_failures_never_propagate :
    (∀ (adm : AdminModel) (admins : List Admin) (orgs : List Organization)
        (org_id admin_id : String) (now : Nat) (s s' : Except String Unit),
        register_admin adm admins orgs org_id admin_id now s =
          register_admin adm admins orgs org_id admin_id now s') ∧
    (∀ (email name : String) (ca : Payload) (employees : List Employee)
        (new_id : String) (now : Nat) (s s' : Except String Unit),
        create_employee email name ca employees new_id now s =
          create_employee email name ca employees new_id now s') ∧
    (∀ (admin_id : String) (admins : List Admin) (sa : Payload) (now : Nat)
        (s s' : Except String Unit),
        verify_admin admin_id admins sa now s =
          verify_admin admin_id admins sa now s') ∧
    (∀ (adm : AdminModel) (admins : List Admin) (orgs : List Organization)
        (org_id admin_id : String) (now : Nat) (m : String),
        admins.find? (fun a => a.email = adm.email) = none →
        (register_admin adm admins orgs org_id admin_id now (.error m)).1 =
          .ok { message := "Registration successful. Your request has been sent for verification.",
                admin_id := admin_id, organization_id := org_id,
                organization_name := adm.organization }) ∧
    (∀ (email name : String) (ca : Payload) (employees : List Employee)
        (new_id : String) (now : Nat) (m : String),
        haskey ca "admin_id" = true → haskey ca "organization_id" = true →
        haskey ca "organization_name" = true →
        employees.find? (fun e => e.email = email) = none →
        create_employee email name ca employees new_id now (.error m) =
          .ok ({ message := "Employee created successfully", employee_id := new_id },
               employees ++ [new_employee_record email name ca new_id now])) ∧
    (∀ (admin_id : String) (admins : List Admin) (sa : Payload) (now : Nat)
        (m : String) (a : Admin),
        admins.find? (fun x => x.id = admin_id) = some a →
        a.is_verified = false →
        (verify_admin admin_id admins sa now (.error m)).1 =
          .ok { message := "Admin verified successfully", admin_id := admin_id,
                verified_at := now }) := by
  refine ⟨?_, ?_, ?_, ?_, ?_, ?_⟩
  · intro adm admins orgs org_id admin_id now s s'
    rfl
  · intro email name ca employees new_id now s s'
    rfl
  · intro admin_id admins sa now s s'
    rfl
  · intro adm admins orgs org_id admin_id now m hfresh
    simp [register_admin, hfresh]
  · intro email name ca employees new_id now m ha ho hn hfresh
    exact create_employee_fresh email name ca employees new_id now (.error m)
      ha ho hn hfresh
  · intro admin_id admins sa now m a hfind hunver
    rw [verify_admin_unverified admin_id admins sa now (.error m) a hfind hunver]

/-- C9 witness: a concrete registration with a failing SMTP layer still
succeeds, and its whole result equals the result with a succeeding SMTP
layer. -/
theorem C9_email_failures_never_propagate_witness :
    (register_admin ⟨"a@x.com", "Ann", "1234567890", "Acme", "addr", 2⟩ [] []
        "ORG-1" "ADMIN-1" 0 (.error "smtp down")).1 =
      .ok { message := "Registration successful. Your request has been sent for verification.",
            admin_id := "ADMIN-1", organization_id := "ORG-1",
            organization_name := "Acme" } ∧
    register_admin ⟨"a@x.com", "Ann", "1234567890", "Acme", "addr", 2⟩ [] []
        "ORG-1" "ADMIN-1" 0 (.error "smtp down") =
      register_admin ⟨"a@x.com", "Ann", "1234567890", "Acme", "addr", 2⟩ [] []
        "ORG-1" "ADMIN-1" 0 (.ok ()) :=
  ⟨C9_email_failures_never_propagate.2.2.2.1
      ⟨"a@x.com", "Ann", "1234567890", "Acme", "addr", 2⟩ [] []
      "ORG-1" "ADMIN-1" 0 "smtp down" rfl,
   C9_email_failures_never_propagate.1
      ⟨"a@x.com", "Ann", "1234567890", "Acme", "addr", 2⟩ [] []
      "ORG-1" "ADMIN-1" 0 (.error "smtp down") (.ok ())⟩

/-- C10: decoding a freshly issued token under the same secret reproduces
the issued claim set: both issuers (`dependencies.create_access_token`
with ttl `T` and `security.create_access_token` with its fixed 30-minute
ttl) produce a token whose decoded payload agrees with the input claims
on every key other than `exp` and carries the added `exp` timestamp. -/
theorem C10_issue_then_decode_roundtrip
    (data : Payload) (now T : Nat) (secret : String) :
    (security.decode_token
        (dependencies.create_access_token data now (some T) secret) secret now =
        .ok (pupdate data "exp" (.num (((now + T : Nat) : Int))))) ∧
    (security.decode_token
        (security.create_access_token data now secret) secret now =
        .ok (pupdate data "exp" (.num (((now + 30 * 60 : Nat) : Int))))) ∧
    (∀ k, k ≠ "exp" →
        pget (pupdate data "exp" (.num (((now + T : Nat) : Int)))) k = pget data k) ∧
    (∀ k, k ≠ "exp" →
        pget (pupdate data "exp" (.num (((now + 30 * 60 : Nat) : Int)))) k = pget data k) ∧
    pget (pupdate data "exp" (.num (((now + T : Nat) : Int)))) "exp" =
      .num (((now + T : Nat) : Int)) := by
  refine ⟨?_, ?_, fun k hk => pget_pupdate_ne data "exp" k _ hk,
    fun k hk => pget_pupdate_ne data "exp" k _ hk, pget_pupdate_self data "exp" _⟩
  · have htok : dependencies.create_access_token data now (some T) secret =
        ⟨pupdate data "exp" (.num ((now + T : Nat) : Int)), secret⟩ := rfl
    have hlt : ¬ (((now + T : Nat) : Int) < (now : Int)) := by omega
    rw [htok, decode_token_pupdate, if_neg hlt]
  · have htok : security.create_access_token data now secret =
        ⟨pupdate data "exp" (.num ((now + 30 * 60 : Nat) : Int)), secret⟩ := rfl
    have hlt : ¬ (((now + 30 * 60 : Nat) : Int) < (now : Int)) := by omega
    rw [htok, decode_token_pupdate, if_neg hlt]

/-- C10 witness: concrete round trip, and the `role` claim survives it. -/
theorem C10_issue_then_decode_roundtrip_witness :
    security.decode_token
        (dependencies.create_access_token [("role", JVal.str "admin")] 0 (some 5) "s")
        "s" 0 =
      .ok (pupdate [("role", JVal.str "admin")] "exp" (.num (((0 + 5 : Nat) : Int)))) ∧
    pget (pupdate [("role", JVal.str "admin")] "exp" (.num (((0 + 5 : Nat) : Int)))) "role" =
      pget [("role", JVal.str "admin")] "role" :=
  ⟨(C10_issue_then_decode_roundtrip [("role", JVal.str "admin")] 0 5 "s").1,
   (C10_issue_then_decode_roundtrip [("role", JVal.str "admin")] 0 5 "s").2.2.1
     "role" (by decide)⟩
